import Mathlib

/-!
Verification of the jsHue bridge API client bundled in this repository
(the jsHueAPI function at the top of index.bundle.js).  The client is a
thin layer over the browser fetch primitive: a URL-joining helper, a
JSON request primitive, an endpoint factory, and a hierarchy of
resource-scoped request functions.  We embed those functions shallowly:
the injected fetch dependency becomes an explicit environment mapping
each request to its outcome, and every client operation returns the list
of requests it issues together with the settled promise value.
-/

namespace HueClient

/-- JSON values, as produced by the JSON dependency injected into jsHueAPI. -/
inductive Json where
  | null
  | bool (b : Bool)
  | num (n : Int)
  | str (s : String)
  | arr (elems : List Json)
  | obj (fields : List (String × Json))

/-- Escape of a single character inside a JSON string literal, following
JSON.stringify: quote, backslash and the named control characters get a
two-character escape, other control characters a \u00XX escape. -/
def escapeChar (c : Char) : String :=
  if c = '"' then "\\\""
  else if c = '\\' then "\\\\"
  else if c = '\n' then "\\n"
  else if c = '\r' then "\\r"
  else if c = '\t' then "\\t"
  else if c = Char.ofNat 8 then "\\b"
  else if c = Char.ofNat 12 then "\\f"
  else if c.toNat < 32 then
    "\\u00" ++ String.mk [(Nat.digitChar (c.toNat / 16)), (Nat.digitChar (c.toNat % 16))]
  else String.mk [c]

/-- A JSON string literal: the escaped characters between double quotes. -/
def escapeString (s : String) : String :=
  "\"" ++ String.join (s.data.map escapeChar) ++ "\""

mutual

/-- JSON.stringify restricted to JSON values (it always yields a string there). -/
def Json.stringify : Json → String
  | .null => "null"
  | .bool b => cond b "true" "false"
  | .num n => toString n
  | .str s => escapeString s
  | .arr es => "[" ++ stringifyElems es ++ "]"
  | .obj fs => "\x7b" ++ stringifyFields fs ++ "\x7d"

/-- Comma-separated serialization of JSON array elements. -/
def stringifyElems : List Json → String
  | [] => ""
  | [j] => Json.stringify j
  | j :: rest => Json.stringify j ++ "," ++ stringifyElems rest

/-- Comma-separated serialization of JSON object members. -/
def stringifyFields : List (String × Json) → String
  | [] => ""
  | [(k, v)] => escapeString k ++ ":" ++ Json.stringify v
  | (k, v) :: rest => escapeString k ++ ":" ++ Json.stringify v ++ "," ++ stringifyFields rest

end

/-- The data argument of the request primitive: a JavaScript value that is
either the undefined value (the argument was omitted) or a JSON value
(JSON null being the body-suppressing sentinel tested by the code). -/
inductive JSData where
  | undefined
  | val (j : Json)

/-- JSON.stringify as applied to a data argument: stringifying the
undefined value yields the undefined value again, i.e. no string. -/
def jsStringify : JSData → Option String
  | .undefined => none
  | .val j => some j.stringify

/-- A single HTTP request as handed to fetch: method, URL, and optional
text body (none models a fetch call whose body option is null or undefined). -/
structure Request where
  method : String
  url : String
  body : Option String
deriving DecidableEq

/-- Outcome of the body computation inside the request primitive, mirroring
the statement: if (data !== null) data = JSON.stringify(data).  When data is
the JSON null sentinel the stringify call is skipped and the null body means
no body; when data is the undefined value the stringify call returns the
undefined value, which also means no body. -/
def requestBody : JSData → Option String
  | .val .null => none
  | d => jsStringify d

/-- What the browser delivers for blob.json(): the HTTP status code and the
parse outcome of the response body (none when the body is not valid JSON,
in which case the blob.json() promise rejects). -/
structure Response where
  status : Nat
  jsonBody : Option Json

/-- Outcome of a fetch call: either the network exchange fails (the fetch
promise rejects) or a response arrives. -/
inductive FetchOutcome where
  | networkError
  | response (r : Response)

/-- The settled state of a promise for a value of type a. -/
inductive PromiseResult (a : Type) where
  | rejected
  | resolved (v : a)

/-- The environment: the behaviour of the injected fetch dependency,
mapping each request to its outcome. -/
def FetchEnv : Type := Request → FetchOutcome

/-- The promise returned by fetch(url, ...).then(blob => blob.json()):
rejects on network failure, rejects when the response body does not parse
as JSON, and otherwise resolves with the parsed JSON value. -/
def thenJson : FetchOutcome → PromiseResult Json
  | .networkError => .rejected
  | .response r =>
    match r.jsonBody with
    | none => .rejected
    | some j => .resolved j

/-- What one client call does: the requests it hands to fetch, in order,
and the settled value of the promise it returns. -/
structure CallResult where
  requests : List Request
  result : PromiseResult Json

/-- Embedding of _requestJson: serialize the data unless it is the null
sentinel, hand exactly one request to fetch, and return the json-parsed
outcome of that request. -/
def _requestJson (env : FetchEnv) (method url : String) (data : JSData) : CallResult :=
  let req : Request := ⟨method, url, requestBody data⟩
  ⟨[req], thenJson (env req)⟩

/-- Embedding of _requestJsonUrl: _requestJson called with the data
argument omitted, i.e. the undefined value. -/
def _requestJsonUrl (env : FetchEnv) (method url : String) : CallResult :=
  _requestJson env method url .undefined

/-- Embedding of _get: _requestJsonUrl bound to the GET method. -/
def _get (env : FetchEnv) (url : String) : CallResult :=
  _requestJsonUrl env "GET" url

/-- Embedding of _put: _requestJson bound to the PUT method. -/
def _put (env : FetchEnv) (url : String) (data : JSData) : CallResult :=
  _requestJson env "PUT" url data

/-- Embedding of _post: _requestJson bound to the POST method. -/
def _post (env : FetchEnv) (url : String) (data : JSData) : CallResult :=
  _requestJson env "POST" url data

/-- Embedding of _delete: _requestJsonUrl bound to the DELETE method. -/
def _delete (env : FetchEnv) (url : String) : CallResult :=
  _requestJsonUrl env "DELETE" url

/-- Embedding of _slash: Array.prototype.slice turns the arguments object
into the list of segments, and the join call intercalates the separator. -/
def _slash (parts : List String) : String :=
  String.intercalate "/" parts

/-- Embedding of _parametrize: the returned function takes the identifier
p plus the remaining arguments (gathered here into one value of type a)
and applies the request function to the generated URL and those arguments. -/
def _parametrize {i a b : Type} (method : String → a → b) (url : i → String) : i → a → b :=
  fun p rest => method (url p) rest

/-- _parametrize applied to a request function taking no arguments beyond
the URL (the parametrized _get and _delete of the source). -/
def _parametrize0 {i b : Type} (method : String → b) (url : i → String) : i → b :=
  fun p => _parametrize (fun u (_ : Unit) => method u) url p ()

/-! URL hierarchy.  In the source these are closure-captured constants of
the bridge and user objects; here they are functions of the bridge address
ip and the username u.  Identifiers are modelled as the strings they are
coerced to when the join call concatenates them. -/

/-- The bridge base URL, from the template literal in bridge(ip). -/
def _bridgeUrl (ip : String) : String := "http://" ++ ip ++ "/api"

/-- The authenticated user root URL. -/
def _userUrl (ip u : String) : String := _slash [_bridgeUrl ip, u]

/-- The info collection URL. -/
def _infoUrl (ip u : String) : String := _slash [_userUrl ip u, "info"]

/-- The config collection URL. -/
def _configUrl (ip u : String) : String := _slash [_userUrl ip u, "config"]

/-- The lights collection URL. -/
def _lightsUrl (ip u : String) : String := _slash [_userUrl ip u, "lights"]

/-- The groups collection URL. -/
def _groupsUrl (ip u : String) : String := _slash [_userUrl ip u, "groups"]

/-- The schedules collection URL. -/
def _schedulesUrl (ip u : String) : String := _slash [_userUrl ip u, "schedules"]

/-- The scenes collection URL. -/
def _scenesUrl (ip u : String) : String := _slash [_userUrl ip u, "scenes"]

/-- The sensors collection URL. -/
def _sensorsUrl (ip u : String) : String := _slash [_userUrl ip u, "sensors"]

/-- The rules collection URL. -/
def _rulesUrl (ip u : String) : String := _slash [_userUrl ip u, "rules"]

/-- Embedding of _objectUrl: from a collection base URL, the function
mapping an identifier to the resource instance URL. -/
def _objectUrl (baseUrl : String) : String → String :=
  fun id => _slash [baseUrl, id]

/-- _lightUrl = _objectUrl(_lightsUrl). -/
def _lightUrl (ip u : String) : String → String := _objectUrl (_lightsUrl ip u)

/-- _groupUrl = _objectUrl(_groupsUrl). -/
def _groupUrl (ip u : String) : String → String := _objectUrl (_groupsUrl ip u)

/-- _scheduleUrl = _objectUrl(_schedulesUrl). -/
def _scheduleUrl (ip u : String) : String → String := _objectUrl (_schedulesUrl ip u)

/-- _sceneUrl = _objectUrl(_scenesUrl). -/
def _sceneUrl (ip u : String) : String → String := _objectUrl (_scenesUrl ip u)

/-- _sensorUrl = _objectUrl(_sensorsUrl). -/
def _sensorUrl (ip u : String) : String → String := _objectUrl (_sensorsUrl ip u)

/-- _ruleUrl = _objectUrl(_rulesUrl). -/
def _ruleUrl (ip u : String) : String → String := _objectUrl (_rulesUrl ip u)

/-! The client operations.  Each definition mirrors one property of the
object returned by jsHueAPI, bridge(ip) or user(username). -/

/-- discover: GET against the well-known discovery endpoint. -/
def discover (env : FetchEnv) : CallResult :=
  _get env "https://www.meethue.com/api/nupnp"

/-- createUser: POST the devicetype object to the bridge base URL. -/
def createUser (env : FetchEnv) (ip devicetype : String) : CallResult :=
  _post env (_bridgeUrl ip) (.val (.obj [("devicetype", .str devicetype)]))

/-- getTimezones: GET info/timezones. -/
def getTimezones (env : FetchEnv) (ip u : String) : CallResult :=
  _get env (_slash [_infoUrl ip u, "timezones"])

/-- create: POST the username and devicetype object to the bridge base URL. -/
def create (env : FetchEnv) (ip u devicetype : String) : CallResult :=
  _post env (_bridgeUrl ip) (.val (.obj [("username", .str u), ("devicetype", .str devicetype)]))

/-- deleteUser: parametrized DELETE on config/whitelist/username. -/
def deleteUser (env : FetchEnv) (ip u : String) : String → CallResult :=
  _parametrize0 (_delete env) (fun w => _slash [_configUrl ip u, "whitelist", w])

/-- getConfig: GET the config URL. -/
def getConfig (env : FetchEnv) (ip u : String) : CallResult :=
  _get env (_configUrl ip u)

/-- setConfig: PUT on the config URL. -/
def setConfig (env : FetchEnv) (ip u : String) (d : JSData) : CallResult :=
  _put env (_configUrl ip u) d

/-- getFullState: GET the user root URL. -/
def getFullState (env : FetchEnv) (ip u : String) : CallResult :=
  _get env (_userUrl ip u)

/-- getLights: GET the lights collection URL. -/
def getLights (env : FetchEnv) (ip u : String) : CallResult :=
  _get env (_lightsUrl ip u)

/-- getNewLights: GET lights/new. -/
def getNewLights (env : FetchEnv) (ip u : String) : CallResult :=
  _get env (_slash [_lightsUrl ip u, "new"])

/-- searchForNewLights: _post.bind(null, _lightsUrl, null), a POST whose
data argument is the null sentinel. -/
def searchForNewLights (env : FetchEnv) (ip u : String) : CallResult :=
  _post env (_lightsUrl ip u) (.val .null)

/-- getLight: parametrized GET on a light instance URL. -/
def getLight (env : FetchEnv) (ip u : String) : String → CallResult :=
  _parametrize0 (_get env) (_lightUrl ip u)

/-- setLight: parametrized PUT on a light instance URL. -/
def setLight (env : FetchEnv) (ip u : String) : String → JSData → CallResult :=
  _parametrize (_put env) (_lightUrl ip u)

/-- setLightState: parametrized PUT on lights/id/state. -/
def setLightState (env : FetchEnv) (ip u : String) : String → JSData → CallResult :=
  _parametrize (_put env) (fun id => _slash [_lightUrl ip u id, "state"])

/-- getGroups: GET the groups collection URL. -/
def getGroups (env : FetchEnv) (ip u : String) : CallResult :=
  _get env (_groupsUrl ip u)

/-- createGroup: POST on the groups collection URL. -/
def createGroup (env : FetchEnv) (ip u : String) (d : JSData) : CallResult :=
  _post env (_groupsUrl ip u) d

/-- getGroup: parametrized GET on a group instance URL. -/
def getGroup (env : FetchEnv) (ip u : String) : String → CallResult :=
  _parametrize0 (_get env) (_groupUrl ip u)

/-- setGroup: parametrized PUT on a group instance URL. -/
def setGroup (env : FetchEnv) (ip u : String) : String → JSData → CallResult :=
  _parametrize (_put env) (_groupUrl ip u)

/-- setGroupState: parametrized PUT on groups/id/action. -/
def setGroupState (env : FetchEnv) (ip u : String) : String → JSData → CallResult :=
  _parametrize (_put env) (fun id => _slash [_groupUrl ip u id, "action"])

/-- deleteGroup: parametrized DELETE on a group instance URL. -/
def deleteGroup (env : FetchEnv) (ip u : String) : String → CallResult :=
  _parametrize0 (_delete env) (_groupUrl ip u)

/-- getSchedules: GET the schedules collection URL. -/
def getSchedules (env : FetchEnv) (ip u : String) : CallResult :=
  _get env (_schedulesUrl ip u)

/-- createSchedule: POST on the schedules collection URL. -/
def createSchedule (env : FetchEnv) (ip u : String) (d : JSData) : CallResult :=
  _post env (_schedulesUrl ip u) d

/-- getSchedule: parametrized GET on a schedule instance URL. -/
def getSchedule (env : FetchEnv) (ip u : String) : String → CallResult :=
  _parametrize0 (_get env) (_scheduleUrl ip u)

/-- setSchedule: parametrized PUT on a schedule instance URL. -/
def setSchedule (env : FetchEnv) (ip u : String) : String → JSData → CallResult :=
  _parametrize (_put env) (_scheduleUrl ip u)

/-- deleteSchedule: parametrized DELETE on a schedule instance URL. -/
def deleteSchedule (env : FetchEnv) (ip u : String) : String → CallResult :=
  _parametrize0 (_delete env) (_scheduleUrl ip u)

/-- getScenes: GET the scenes collection URL. -/
def getScenes (env : FetchEnv) (ip u : String) : CallResult :=
  _get env (_scenesUrl ip u)

/-- setScene: parametrized PUT on a scene instance URL. -/
def setScene (env : FetchEnv) (ip u : String) : String → JSData → CallResult :=
  _parametrize (_put env) (_sceneUrl ip u)

/-- setSceneLightState: PUT on scenes/sceneId/lights/lightId/state. -/
def setSceneLightState (env : FetchEnv) (ip u : String) (sceneId lightId : String) (d : JSData) : CallResult :=
  _put env (_slash [_sceneUrl ip u sceneId, "lights", lightId, "state"]) d

/-- getSensors: GET the sensors collection URL. -/
def getSensors (env : FetchEnv) (ip u : String) : CallResult :=
  _get env (_sensorsUrl ip u)

/-- createSensor: POST on the sensors collection URL. -/
def createSensor (env : FetchEnv) (ip u : String) (d : JSData) : CallResult :=
  _post env (_sensorsUrl ip u) d

/-- searchForNewSensors: _post.bind(null, _sensorsUrl, null), a POST whose
data argument is the null sentinel. -/
def searchForNewSensors (env : FetchEnv) (ip u : String) : CallResult :=
  _post env (_sensorsUrl ip u) (.val .null)

/-- getNewSensors: GET sensors/new. -/
def getNewSensors (env : FetchEnv) (ip u : String) : CallResult :=
  _get env (_slash [_sensorsUrl ip u, "new"])

/-- getSensor: parametrized GET on a sensor instance URL. -/
def getSensor (env : FetchEnv) (ip u : String) : String → CallResult :=
  _parametrize0 (_get env) (_sensorUrl ip u)

/-- setSensor: parametrized PUT on a sensor instance URL. -/
def setSensor (env : FetchEnv) (ip u : String) : String → JSData → CallResult :=
  _parametrize (_put env) (_sensorUrl ip u)

/-- setSensorConfig: parametrized PUT on sensors/id/config. -/
def setSensorConfig (env : FetchEnv) (ip u : String) : String → JSData → CallResult :=
  _parametrize (_put env) (fun id => _slash [_sensorUrl ip u id, "config"])

/-- setSensorState: parametrized PUT on sensors/id/state. -/
def setSensorState (env : FetchEnv) (ip u : String) : String → JSData → CallResult :=
  _parametrize (_put env) (fun id => _slash [_sensorUrl ip u id, "state"])

/-- deleteSensor: parametrized DELETE on a sensor instance URL. -/
def deleteSensor (env : FetchEnv) (ip u : String) : String → CallResult :=
  _parametrize0 (_delete env) (_sensorUrl ip u)

/-- getRules: GET the rules collection URL. -/
def getRules (env : FetchEnv) (ip u : String) : CallResult :=
  _get env (_rulesUrl ip u)

/-- createRule: POST on the rules collection URL. -/
def createRule (env : FetchEnv) (ip u : String) (d : JSData) : CallResult :=
  _post env (_rulesUrl ip u) d

/-- getRule: parametrized GET on a rule instance URL. -/
def getRule (env : FetchEnv) (ip u : String) : String → CallResult :=
  _parametrize0 (_get env) (_ruleUrl ip u)

/-- setRule: parametrized PUT on a rule instance URL. -/
def setRule (env : FetchEnv) (ip u : String) : String → JSData → CallResult :=
  _parametrize (_put env) (_ruleUrl ip u)

/-- deleteRule: parametrized DELETE on a rule instance URL. -/
def deleteRule (env : FetchEnv) (ip u : String) : String → CallResult :=
  _parametrize0 (_delete env) (_ruleUrl ip u)

/-- A fixed environment in which every exchange fails at the network
level; used to evaluate concrete calls. -/
def envNE : FetchEnv := fun _ => .networkError

/-- One invocation of a client operation, with its arguments: the whole
callable surface of the client (portal, bridge and user levels). -/
inductive ClientOp where
  | discover
  | createUser (ip devicetype : String)
  | getTimezones (ip u : String)
  | create (ip u devicetype : String)
  | deleteUser (ip u w : String)
  | getConfig (ip u : String)
  | setConfig (ip u : String) (d : JSData)
  | getFullState (ip u : String)
  | getLights (ip u : String)
  | getNewLights (ip u : String)
  | searchForNewLights (ip u : String)
  | getLight (ip u id : String)
  | setLight (ip u id : String) (d : JSData)
  | setLightState (ip u id : String) (d : JSData)
  | getGroups (ip u : String)
  | createGroup (ip u : String) (d : JSData)
  | getGroup (ip u id : String)
  | setGroup (ip u id : String) (d : JSData)
  | setGroupState (ip u id : String) (d : JSData)
  | deleteGroup (ip u id : String)
  | getSchedules (ip u : String)
  | createSchedule (ip u : String) (d : JSData)
  | getSchedule (ip u id : String)
  | setSchedule (ip u id : String) (d : JSData)
  | deleteSchedule (ip u id : String)
  | getScenes (ip u : String)
  | setScene (ip u id : String) (d : JSData)
  | setSceneLightState (ip u sceneId lightId : String) (d : JSData)
  | getSensors (ip u : String)
  | createSensor (ip u : String) (d : JSData)
  | searchForNewSensors (ip u : String)
  | getNewSensors (ip u : String)
  | getSensor (ip u id : String)
  | setSensor (ip u id : String) (d : JSData)
  | setSensorConfig (ip u id : String) (d : JSData)
  | setSensorState (ip u id : String) (d : JSData)
  | deleteSensor (ip u id : String)
  | getRules (ip u : String)
  | createRule (ip u : String) (d : JSData)
  | getRule (ip u id : String)
  | setRule (ip u id : String) (d : JSData)
  | deleteRule (ip u id : String)

/-- Dispatch a client operation to its embedded definition. -/
def runOp (env : FetchEnv) : ClientOp → CallResult
  | .discover => discover env
  | .createUser ip t => createUser env ip t
  | .getTimezones ip u => getTimezones env ip u
  | .create ip u t => create env ip u t
  | .deleteUser ip u w => deleteUser env ip u w
  | .getConfig ip u => getConfig env ip u
  | .setConfig ip u d => setConfig env ip u d
  | .getFullState ip u => getFullState env ip u
  | .getLights ip u => getLights env ip u
  | .getNewLights ip u => getNewLights env ip u
  | .searchForNewLights ip u => searchForNewLights env ip u
  | .getLight ip u id => getLight env ip u id
  | .setLight ip u id d => setLight env ip u id d
  | .setLightState ip u id d => setLightState env ip u id d
  | .getGroups ip u => getGroups env ip u
  | .createGroup ip u d => createGroup env ip u d
  | .getGroup ip u id => getGroup env ip u id
  | .setGroup ip u id d => setGroup env ip u id d
  | .setGroupState ip u id d => setGroupState env ip u id d
  | .deleteGroup ip u id => deleteGroup env ip u id
  | .getSchedules ip u => getSchedules env ip u
  | .createSchedule ip u d => createSchedule env ip u d
  | .getSchedule ip u id => getSchedule env ip u id
  | .setSchedule ip u id d => setSchedule env ip u id d
  | .deleteSchedule ip u id => deleteSchedule env ip u id
  | .getScenes ip u => getScenes env ip u
  | .setScene ip u id d => setScene env ip u id d
  | .setSceneLightState ip u s n d => setSceneLightState env ip u s n d
  | .getSensors ip u => getSensors env ip u
  | .createSensor ip u d => createSensor env ip u d
  | .searchForNewSensors ip u => searchForNewSensors env ip u
  | .getNewSensors ip u => getNewSensors env ip u
  | .getSensor ip u id => getSensor env ip u id
  | .setSensor ip u id d => setSensor env ip u id d
  | .setSensorConfig ip u id d => setSensorConfig env ip u id d
  | .setSensorState ip u id d => setSensorState env ip u id d
  | .deleteSensor ip u id => deleteSensor env ip u id
  | .getRules ip u => getRules env ip u
  | .createRule ip u d => createRule env ip u d
  | .getRule ip u id => getRule env ip u id
  | .setRule ip u id d => setRule env ip u id d
  | .deleteRule ip u id => deleteRule env ip u id

/-- A data argument is proper when it is an actual JSON payload: neither
the undefined value nor the body-suppressing null sentinel. -/
def JSData.proper : JSData → Bool
  | .undefined => false
  | .val .null => false
  | .val _ => true

/-- An operation has proper data when its payload argument, if it has one,
is proper. -/
def ClientOp.properData : ClientOp → Bool
  | .setConfig _ _ d => d.proper
  | .setLight _ _ _ d => d.proper
  | .setLightState _ _ _ d => d.proper
  | .createGroup _ _ d => d.proper
  | .setGroup _ _ _ d => d.proper
  | .setGroupState _ _ _ d => d.proper
  | .createSchedule _ _ d => d.proper
  | .setSchedule _ _ _ d => d.proper
  | .setScene _ _ _ d => d.proper
  | .setSceneLightState _ _ _ _ d => d.proper
  | .createSensor _ _ d => d.proper
  | .setSensor _ _ _ d => d.proper
  | .setSensorConfig _ _ _ d => d.proper
  | .setSensorState _ _ _ d => d.proper
  | .createRule _ _ d => d.proper
  | .setRule _ _ _ d => d.proper
  | _ => true

/-- The two operations that POST the null sentinel on purpose. -/
def ClientOp.isSearch : ClientOp → Bool
  | .searchForNewLights _ _ => true
  | .searchForNewSensors _ _ => true
  | _ => false

/-- Spec-side recursion for the URL composition helper, written from the
words of the spec: the segments concatenated in order with exactly one
separator between each adjacent pair, no separator before the first or
after the last segment, segments (empty ones included) taken as given. -/
def slashSpec : List String → String
  | [] => ""
  | [s] => s
  | s :: rest => s ++ "/" ++ slashSpec rest

/-!  Theorems.  First some shared lemmas about the URL helper, then one
theorem per specification claim. -/

/-- _slash on a two-element list is the separator-joined pair. -/
theorem slash_pair (a b : String) : _slash [a, b] = a ++ "/" ++ b := rfl

/-- _slash on a three-element list. -/
theorem slash_triple (a b c : String) : _slash [a, b, c] = a ++ "/" ++ b ++ "/" ++ c := rfl

/-- _slash on a four-element list. -/
theorem slash_quad (a b c d : String) :
    _slash [a, b, c, d] = a ++ "/" ++ b ++ "/" ++ c ++ "/" ++ d := rfl

/-- Reassociation step used to fold adjacent literal path pieces. -/
theorem append_lit (a b c : String) (h : a ++ b = c) (X : String) : X ++ a ++ b = X ++ c := by
  rw [String.append_assoc, h]

/-- slashSpec absorbs a separator-extended head segment. -/
theorem slashSpec_cons_append (x acc : String) (xs : List String) :
    slashSpec ((acc ++ "/" ++ x) :: xs) = acc ++ "/" ++ slashSpec (x :: xs) := by
  cases xs with
  | nil => rfl
  | cons y ys => simp [slashSpec, String.append_assoc]

/-- The accumulator loop of String.intercalate computes slashSpec of the
accumulator consed onto the remaining segments. -/
theorem intercalate_go_slashSpec (l : List String) :
    ∀ acc : String, String.intercalate.go acc "/" l = slashSpec (acc :: l) := by
  induction l with
  | nil => intro acc; rfl
  | cons x xs ih =>
    intro acc
    rw [String.intercalate.go, ih (acc ++ "/" ++ x), slashSpec_cons_append]
    rfl

/-- A proper data argument always serializes to an actual body string. -/
theorem requestBody_proper (d : JSData) (h : d.proper = true) : (requestBody d).isSome = true := by
  cases d with
  | undefined => exact absurd h (by simp [JSData.proper])
  | val j => cases j <;> simp_all [JSData.proper, requestBody, jsStringify]

/-- Claim C6: for every finite sequence of string segments, _slash returns
the segments concatenated in order with exactly one separator between each
adjacent pair, no separator before the first or after the last segment,
and no escaping, validation, or filtering of empty segments — stated as
agreement with the spec-side recursion slashSpec on all inputs. -/
theorem C6_slash_joins_segments : ∀ parts : List String, _slash parts = slashSpec parts := by
  intro parts
  cases parts with
  | nil => rfl
  | cons a as =>
    show String.intercalate.go a "/" as = slashSpec (a :: as)
    exact intercalate_go_slashSpec as a

/-- Claim C7: the function produced by _parametrize, applied to an
identifier and remaining arguments, invokes the request function exactly
once with the generated URL and those arguments and returns its result
unmodified; the second conjunct instantiates the request function with a
call logger, whose log after the call is exactly one entry. -/
theorem C7_parametrize_forwards :
    (∀ (i a b : Type) (f : String → a → b) (urlFn : i → String) (id : i) (rest : a),
      _parametrize f urlFn id rest = f (urlFn id) rest) ∧
    (∀ (urlFn : String → String) (id : String) (rest : List String),
      _parametrize (fun url r => ([(url, r)], ())) urlFn id rest = ([(urlFn id, rest)], ())) :=
  ⟨fun _ _ _ _ _ _ _ => rfl, fun _ _ _ => rfl⟩

/-- Claim C8: resource-instance URL derivation is the pure function
joining the base URL and the identifier: _objectUrl(baseUrl)(id) equals
_slash(baseUrl, id), which is the base URL, a separator, and the id. -/
theorem C8_objectUrl_is_slash :
    ∀ baseUrl id : String,
      _objectUrl baseUrl id = _slash [baseUrl, id] ∧ _objectUrl baseUrl id = baseUrl ++ "/" ++ id :=
  fun _ _ => ⟨rfl, rfl⟩

/-- Claim C3: the transport primitive sends the JSON serialization of the
data as the body exactly when the data is not the null absence-marker, and
sends no body when it is, issuing exactly one request either way. -/
theorem C3_body_iff_not_null :
    ∀ (env : FetchEnv) (method url : String),
      ((_requestJson env method url (.val .null)).requests = [⟨method, url, none⟩]) ∧
      (∀ j : Json, j ≠ .null →
        (_requestJson env method url (.val j)).requests = [⟨method, url, some j.stringify⟩]) := by
  intro env method url
  refine ⟨rfl, fun j hj => ?_⟩
  cases j with
  | null => exact absurd rfl hj
  | bool b => rfl
  | num n => rfl
  | str s => rfl
  | arr es => rfl
  | obj fs => rfl

/-- Claim C3 witness at a concrete non-null payload. -/
theorem C3_witness :
    (_requestJson envNE "PUT" "http://b/api" (.val (.obj []))).requests =
      [⟨"PUT", "http://b/api", some "\x7b\x7d"⟩] :=
  (C3_body_iff_not_null envNE "PUT" "http://b/api").2 (.obj []) (fun h => nomatch h)

/-- Claim C10: stringifying the undefined value yields no string, so the
undefined data argument produces a bodyless request just as the null
sentinel does, and _requestJsonUrl is exactly the data-omitted call used
by every GET and DELETE endpoint. -/
theorem C10_undefined_also_bodyless :
    ∀ (env : FetchEnv) (method url : String),
      jsStringify .undefined = none ∧
      (_requestJson env method url .undefined).requests = [⟨method, url, none⟩] ∧
      (_requestJson env method url (.val .null)).requests = [⟨method, url, none⟩] ∧
      _requestJsonUrl env method url = _requestJson env method url .undefined :=
  fun _ _ _ => ⟨rfl, rfl, rfl, rfl⟩

/-- Claim C5: every transport call issues exactly one request and returns
the json-parsed outcome of that request: it rejects on network failure,
rejects when the response body does not parse as JSON, and resolves with
the parsed value otherwise, for every HTTP status code alike. -/
theorem C5_failure_rejects :
    ∀ (env : FetchEnv) (method url : String) (d : JSData),
      ((_requestJson env method url d).requests = [⟨method, url, requestBody d⟩]) ∧
      ((_requestJson env method url d).result = thenJson (env ⟨method, url, requestBody d⟩)) ∧
      (env ⟨method, url, requestBody d⟩ = .networkError →
        (_requestJson env method url d).result = .rejected) ∧
      (∀ status : Nat, env ⟨method, url, requestBody d⟩ = .response ⟨status, none⟩ →
        (_requestJson env method url d).result = .rejected) ∧
      (∀ (status : Nat) (j : Json), env ⟨method, url, requestBody d⟩ = .response ⟨status, some j⟩ →
        (_requestJson env method url d).result = .resolved j) := by
  intro env method url d
  refine ⟨rfl, rfl, fun h => ?_, fun status h => ?_, fun status j h => ?_⟩
  · show thenJson (env ⟨method, url, requestBody d⟩) = .rejected
    rw [h]; rfl
  · show thenJson (env ⟨method, url, requestBody d⟩) = .rejected
    rw [h]; rfl
  · show thenJson (env ⟨method, url, requestBody d⟩) = .resolved j
    rw [h]; rfl

/-- Claim C5 witness: in the environment where every exchange fails at the
network level, a concrete call rejects. -/
theorem C5_witness :
    (_requestJson envNE "GET" "http://10.0.0.5/api" .undefined).result = .rejected :=
  (C5_failure_rejects envNE "GET" "http://10.0.0.5/api" .undefined).2.2.1 rfl

/-- Claim C1: setLightState(n, d) issues exactly one PUT request to
http://ip/api/u/lights/n/state with the JSON serialization of d as the
body and returns the result of the transport primitive for that request; in
particular the documented concrete call produces exactly the documented
request. -/
theorem C1_setLightState_one_put :
    (∀ (env : FetchEnv) (ip u n : String) (fs : List (String × Json)),
      setLightState env ip u n (.val (.obj fs)) =
        ⟨[⟨"PUT", "http://" ++ ip ++ "/api/" ++ u ++ "/lights/" ++ n ++ "/state",
            some (Json.stringify (.obj fs))⟩],
          thenJson (env ⟨"PUT", "http://" ++ ip ++ "/api/" ++ u ++ "/lights/" ++ n ++ "/state",
            some (Json.stringify (.obj fs))⟩)⟩) ∧
    setLightState envNE "10.0.0.5" "abc123" "5" (.val (.obj [("on", .bool true)])) =
      ⟨[⟨"PUT", "http://10.0.0.5/api/abc123/lights/5/state", some "\x7b\"on\":true\x7d"⟩],
        .rejected⟩ := by
  constructor
  · intro env ip u n fs
    have hurl : _slash [_lightUrl ip u n, "state"] =
        "http://" ++ ip ++ "/api/" ++ u ++ "/lights/" ++ n ++ "/state" := by
      simp only [_lightUrl, _objectUrl, _lightsUrl, _userUrl, _bridgeUrl, slash_pair]
      rw [append_lit "/api" "/" "/api/" rfl]
      rw [append_lit "/" "lights" "/lights" rfl]
      rw [append_lit "/lights" "/" "/lights/" rfl]
      rw [append_lit "/" "state" "/state" rfl]
    show _put env (_slash [_lightUrl ip u n, "state"]) (.val (.obj fs)) = _
    rw [hurl]; rfl
  · rfl

/-- Claim C2: createUser(t) issues exactly one POST request to the bridge
base URL http://ip/api, with no credential segment in the URL, whose body
is the JSON serialization of the devicetype object; in particular the
documented concrete call produces exactly the documented request. -/
theorem C2_createUser_one_post :
    (∀ (env : FetchEnv) (ip t : String),
      createUser env ip t =
        ⟨[⟨"POST", "http://" ++ ip ++ "/api",
            some (Json.stringify (.obj [("devicetype", .str t)]))⟩],
          thenJson (env ⟨"POST", "http://" ++ ip ++ "/api",
            some (Json.stringify (.obj [("devicetype", .str t)]))⟩)⟩) ∧
    createUser envNE "10.0.0.5" "myapp" =
      ⟨[⟨"POST", "http://10.0.0.5/api", some "\x7b\"devicetype\":\"myapp\"\x7d"⟩],
        .rejected⟩ :=
  ⟨fun _ _ _ => rfl, rfl⟩

/-- Claim C9: setSceneLightState(s, n, d) issues exactly one PUT request
to the three-level URL http://ip/api/u/scenes/s/lights/n/state with the
JSON serialization of d as the body; in particular the documented concrete
call produces exactly the documented request. -/
theorem C9_setSceneLightState_one_put :
    (∀ (env : FetchEnv) (ip u s n : String) (fs : List (String × Json)),
      setSceneLightState env ip u s n (.val (.obj fs)) =
        ⟨[⟨"PUT", "http://" ++ ip ++ "/api/" ++ u ++ "/scenes/" ++ s ++ "/lights/" ++ n ++ "/state",
            some (Json.stringify (.obj fs))⟩],
          thenJson (env ⟨"PUT",
            "http://" ++ ip ++ "/api/" ++ u ++ "/scenes/" ++ s ++ "/lights/" ++ n ++ "/state",
            some (Json.stringify (.obj fs))⟩)⟩) ∧
    setSceneLightState envNE "10.0.0.5" "abc123" "scene1" "5" (.val (.obj [("bri", .num 120)])) =
      ⟨[⟨"PUT", "http://10.0.0.5/api/abc123/scenes/scene1/lights/5/state",
          some "\x7b\"bri\":120\x7d"⟩],
        .rejected⟩ := by
  constructor
  · intro env ip u s n fs
    have hurl : _slash [_sceneUrl ip u s, "lights", n, "state"] =
        "http://" ++ ip ++ "/api/" ++ u ++ "/scenes/" ++ s ++ "/lights/" ++ n ++ "/state" := by
      simp only [_sceneUrl, _objectUrl, _scenesUrl, _userUrl, _bridgeUrl, slash_pair, slash_quad]
      rw [append_lit "/api" "/" "/api/" rfl]
      rw [append_lit "/" "scenes" "/scenes" rfl]
      rw [append_lit "/scenes" "/" "/scenes/" rfl]
      rw [append_lit "/" "lights" "/lights" rfl]
      rw [append_lit "/lights" "/" "/lights/" rfl]
      rw [append_lit "/" "state" "/state" rfl]
    show _put env (_slash [_sceneUrl ip u s, "lights", n, "state"]) (.val (.obj fs)) = _
    rw [hurl]; rfl
  · rfl

/-- Claim C4 counterexample: it is not the case that every request issued
by a client operation has a body exactly when its method is PUT or POST —
searchForNewLights issues a POST request with no body. -/
theorem C4_counterexample :
    ¬ ∀ (env : FetchEnv) (op : ClientOp), ∀ req ∈ (runOp env op).requests,
        req.body.isSome = (req.method == "PUT" || req.method == "POST") := by
  intro h
  have hx := h envNE (.searchForNewLights "10.0.0.5" "abc123")
    ⟨"POST", "http://10.0.0.5/api/abc123/lights", none⟩
    (List.mem_singleton.mpr rfl)
  exact absurd hx (by decide)

/-- Claim C4 as amended: for every client operation whose payload
argument, if it has one, is an actual JSON payload (neither undefined nor
the null sentinel), every issued request carries a body exactly when its
method is PUT or POST and the operation is not one of the two search
operations, which POST the null sentinel and therefore send no body; all
GET and DELETE requests have no body. -/
theorem C4_amended_body_iff_put_post :
    ∀ (env : FetchEnv) (op : ClientOp), op.properData = true →
      ∀ req ∈ (runOp env op).requests,
        req.body.isSome = ((req.method == "PUT" || req.method == "POST") && !op.isSearch) := by
  intro env op hop req hreq
  cases op <;>
    simp only [runOp, discover, createUser, getTimezones, create, deleteUser, getConfig,
      setConfig, getFullState, getLights, getNewLights, searchForNewLights, getLight, setLight,
      setLightState, getGroups, createGroup, getGroup, setGroup, setGroupState, deleteGroup,
      getSchedules, createSchedule, getSchedule, setSchedule, deleteSchedule, getScenes,
      setScene, setSceneLightState, getSensors, createSensor, searchForNewSensors,
      getNewSensors, getSensor, setSensor, setSensorConfig, setSensorState, deleteSensor,
      getRules, createRule, getRule, setRule, deleteRule, _get, _put, _post, _delete,
      _requestJsonUrl, _requestJson, _parametrize, _parametrize0,
      List.mem_singleton] at hreq <;>
    subst hreq <;>
    simp only [ClientOp.properData] at hop <;>
    first
      | rfl
      | (rw [requestBody_proper _ hop]; rfl)

/-- Claim C4 witness: the amended statement at a concrete operation with a
proper payload. -/
theorem C4_witness :
    (Request.mk "PUT" "http://10.0.0.5/api/abc123/lights/5/state"
        (some "\x7b\"on\":true\x7d")).body.isSome =
      ((("PUT" : String) == "PUT" || ("PUT" : String) == "POST") &&
        !(ClientOp.setLightState "10.0.0.5" "abc123" "5"
            (.val (.obj [("on", .bool true)]))).isSearch) :=
  C4_amended_body_iff_put_post envNE
    (.setLightState "10.0.0.5" "abc123" "5" (.val (.obj [("on", .bool true)]))) rfl
    ⟨"PUT", "http://10.0.0.5/api/abc123/lights/5/state", some "\x7b\"on\":true\x7d"⟩
    (List.mem_singleton.mpr rfl)

end HueClient
